import Mathlib

/-!
Verification of the margin-maximization boosting engines of the `boost`
repository (LPBoost-style column generation and ERLPBoost-style
entropy-regularized boosting) against its natural-language specification.

The Rust sources are shallowly embedded:
* `f64` values are modelled as real numbers (`ℝ`);
* a weak hypothesis is modelled by its vector of confidence values on the
  training sample (`Hyp := List ℝ`), and the sample by its vector of labels;
* the external LP/QP solver and the weak-learner oracle are modelled by
  passing their outputs (`gamma_star`, the updated distribution, the produced
  hypothesis, the final weight vector) as explicit arguments to each step;
* the engines' `struct` state is an explicit Lean structure, and each Rust
  method is a state-passing function.
-/

noncomputable section

open Classical

/-- A weak hypothesis, represented by its confidence values `h(x_i)` on the
training sample (`Classifier::confidence` evaluated at each example). -/
abbrev Hyp := List ℝ

/-- `usize::MAX` on a 64-bit platform, the sentinel stored in `terminated`
before boosting starts. -/
def usizeMax : ℕ := 2 ^ 64 - 1

/-- `f64::MIN`, the most negative finite double, used by `ERLPBoost::init`
as the initial `gamma_star`. -/
def f64MIN : ℝ := -((2 - (2 : ℝ) ^ (-52 : ℤ)) * 2 ^ 1023)

/-- `utils::edge_of_hypothesis(sample, dist, h)`: the weighted edge
`Σ_i dist_i · y_i · h(x_i)`.  The helper itself lives outside `src/`, but the
identical computation appears inline in `lpb.rs::boost` (the target values
mapped through `y * h.confidence(data, i)`, zipped with `dist`, then
`d * yh` summed). -/
def edge_of_hypothesis (labels dist conf : List ℝ) : ℝ :=
  (List.zipWith (fun yh d => d * yh) (List.zipWith (fun y c => y * c) labels conf) dist).sum

/-- Modelled from the spec: `utils::entropy_from_uni_distribution` is not
under `src/`.  Per spec §4.1 the entropy term of the regularized objective is
`−(1/η)·Σ dᵢ ln(n·dᵢ)`, so the entropy of a distribution `d` of length `n`
is `−Σ dᵢ ln(n·dᵢ)` (zero at the uniform distribution). -/
def entropy_from_uni_distribution (dist : List ℝ) : ℝ :=
  -((dist.map (fun d => d * Real.log ((dist.length : ℝ) * d))).sum)

/-- Modelled from the spec: `common::checker::check_nu` is not under `src/`.
Per spec §7 (and the inline assertions in `lpb.rs::nu` and
`erlpboost.rs::nu`) the capping parameter must satisfy `1 ≤ ν ≤ n`, and the
check panics otherwise. -/
def check_nu (nu : ℝ) (n_sample : ℕ) : Prop :=
  1 ≤ nu ∧ nu ≤ (n_sample : ℝ)

/-- Modelled from the spec: `WeightedMajority::from_slices` /
`CombinedHypothesis::from_slices` are not under `src/`.  Per spec §4.3 the
builder pairs weights with hypotheses positionally and drops zero-weight
pairs without re-normalization; the same construction appears in-src in
`lpb.rs::postprocess` (`weight().zip(classifiers).filter(|(w, _)| *w != 0.0)`). -/
def from_slices (w : List ℝ) (hs : List Hyp) : List (ℝ × Hyp) :=
  (w.zip hs).filter (fun p => p.1 ≠ 0)

/-- `std::ops::ControlFlow<usize>`, the return type of the current
`LPBoost::boost` (`lpboost_algorithm.rs`). -/
inductive CtrlFlow where
  | Break : ℕ → CtrlFlow
  | Continue : CtrlFlow
deriving DecidableEq

/-- The crate's `State` enum, returned by `ERLPBoost::boost` and by the
older `LPBoost::boost` in `lpb.rs`. -/
inductive State where
  | Terminate : State
  | Continue : State
deriving DecidableEq

/-! ## LPBoost (`src/booster/lpboost/lpboost_algorithm.rs`) -/

/-- The state of `LPBoost` (`lpboost_algorithm.rs`).  The borrowed `sample`
is modelled by its label vector; `lp_model` records only what the engine
passes to `LPModel::init`, namely the per-example weight upper bound. -/
@[ext]
structure LPBoost where
  labels : List ℝ
  dist : List ℝ
  gamma_hat : ℝ
  tolerance : ℝ
  n_sample : ℕ
  nu : ℝ
  lp_model : Option ℝ
  hypotheses : List Hyp
  weights : List ℝ
  terminated : ℕ

namespace LPBoost

/-- `LPBoost::init(sample)`. -/
def init (labels : List ℝ) : LPBoost :=
  let n := labels.length
  { labels := labels
    dist := []
    gamma_hat := 1
    tolerance := 1 / (n : ℝ)
    n_sample := n
    nu := 1
    lp_model := none
    hypotheses := []
    weights := []
    terminated := usizeMax }

/-- `LPBoost::nu(nu)`.  The checker panics (modelled as `none`) unless
`1 ≤ ν ≤ n_sample`. -/
def set_nu (s : LPBoost) (ν : ℝ) : Option LPBoost :=
  if check_nu ν s.n_sample then some { s with nu := ν } else none

/-- `LPBoost::tolerance(tolerance)`. -/
def set_tolerance (s : LPBoost) (tol : ℝ) : LPBoost :=
  { s with tolerance := tol }

/-- `LPBoost::init_solver`: passes the upper bound `1/ν` to `LPModel::init`.
(The in-code `assert!((1.0..=n).contains(&nu))` always holds for states whose
`nu` went through `set_nu` or kept the default `1`.) -/
def init_solver (s : LPBoost) : LPBoost :=
  { s with lp_model := some (1 / s.nu) }

/-- `LPBoost::preprocess`.  The external
`Sample::is_valid_binary_instance` check concerns only the borrowed sample
and is not part of the engine state.  Note `uni` is computed from the
`n_sample` field while the new `dist` length comes from the sample, exactly
as in the source. -/
def preprocess (s : LPBoost) : LPBoost :=
  let n := s.labels.length
  let uni : ℝ := 1 / (s.n_sample : ℝ)
  let s1 := s.init_solver
  { s1 with
    n_sample := n
    dist := List.replicate n uni
    gamma_hat := 1
    hypotheses := []
    terminated := usizeMax }

/-- `LPBoost::boost`.  The weak learner's hypothesis `h`, the dual value
`gamma_star` returned by `LPModel::update`, and the solver's updated
`distribution()` are the external collaborators' outputs, passed in. -/
def boost (s : LPBoost) (iteration : ℕ) (h : Hyp) (gamma_star : ℝ)
    (solver_dist : List ℝ) : LPBoost × CtrlFlow :=
  let ghat := edge_of_hypothesis s.labels s.dist h
  let s1 := { s with gamma_hat := min ghat s.gamma_hat }
  if s1.gamma_hat - s1.tolerance ≤ gamma_star then
    let hs := s1.hypotheses ++ [h]
    ({ s1 with hypotheses := hs, terminated := hs.length }, CtrlFlow.Break iteration)
  else
    ({ s1 with hypotheses := s1.hypotheses ++ [h], dist := solver_dist },
      CtrlFlow.Continue)

/-- `LPBoost::postprocess`, with the solver's final per-hypothesis weight
vector passed in. -/
def postprocess (s : LPBoost) (solver_weights : List ℝ) :
    LPBoost × List (ℝ × Hyp) :=
  ({ s with weights := solver_weights }, from_slices solver_weights s.hypotheses)

end LPBoost

/-! ## The older LPBoost (`src/booster/lpboost/lpb.rs`) -/

/-- The state of the older `LPBoost` in `lpb.rs`.  It does not borrow the
sample: `data`/`target` are passed to each method call, so the structure
carries no label vector. -/
@[ext]
structure LPB where
  dist : List ℝ
  gamma_hat : ℝ
  tolerance : ℝ
  n_sample : ℕ
  nu : ℝ
  lp_model : Option ℝ
  classifiers : List Hyp
  terminated : ℕ

namespace LPB

/-- `LPBoost::init(data, target)` in `lpb.rs` (asserts `n_sample != 0`;
the claims never instantiate it with an empty sample). -/
def init (n_sample : ℕ) : LPB :=
  let uni : ℝ := 1 / (n_sample : ℝ)
  { dist := List.replicate n_sample uni
    gamma_hat := 1
    tolerance := uni
    n_sample := n_sample
    nu := 1
    lp_model := none
    classifiers := []
    terminated := 0 }

/-- `LPBoost::nu` in `lpb.rs` (inline `assert!(1.0 <= nu && nu <= n)`). -/
def set_nu (s : LPB) (ν : ℝ) : Option LPB :=
  if 1 ≤ ν ∧ ν ≤ (s.n_sample : ℝ) then some { s with nu := ν } else none

/-- `LPBoost::boost` in `lpb.rs`.  The labels come with the per-call
`target`; the hypothesis, the dual value and the solver's distribution are
the collaborators' outputs. -/
def boost (s : LPB) (labels : List ℝ) (h : Hyp) (gamma_star : ℝ)
    (solver_dist : List ℝ) : LPB × State :=
  let ghat := edge_of_hypothesis labels s.dist h
  let s1 := { s with gamma_hat := min ghat s.gamma_hat }
  let s2 := { s1 with classifiers := s1.classifiers ++ [h] }
  if s2.gamma_hat - s2.tolerance ≤ gamma_star then
    ({ s2 with terminated := s2.classifiers.length }, State.Terminate)
  else
    ({ s2 with dist := solver_dist }, State.Continue)

/-- `LPBoost::postprocess` in `lpb.rs`: zip the solver's weights with the
classifier history and drop the zero-weight pairs. -/
def postprocess (s : LPB) (solver_weights : List ℝ) : List (ℝ × Hyp) :=
  (solver_weights.zip s.classifiers).filter (fun p => p.1 ≠ 0)

end LPB

/-! ## ERLPBoost (`src/booster/erlpboost/erlpboost.rs`) -/

/-- The state of `ERLPBoost`.  `qp_model` records what the engine passes to
`QPModel::init`: the regularization parameter `η` and the weight upper bound
`1/ν`. -/
@[ext]
structure ERLPBoost where
  labels : List ℝ
  dist : List ℝ
  gamma_hat : ℝ
  gamma_star : ℝ
  eta : ℝ
  half_tolerance : ℝ
  qp_model : Option (ℝ × ℝ)
  hypotheses : List Hyp
  weights : List ℝ
  n_sample : ℕ
  nu : ℝ
  terminated : ℕ
  max_iter : ℕ

namespace ERLPBoost

/-- `ERLPBoost::init(sample)` (asserts `n_sample != 0`; the claims never
instantiate it with an empty sample). -/
def init (labels : List ℝ) : ERLPBoost :=
  let n := labels.length
  let uni : ℝ := 1 / (n : ℝ)
  let ln_n_sample : ℝ := Real.log (n : ℝ)
  let half_tolerance := uni / 2
  let eta := max 0.5 (ln_n_sample / half_tolerance)
  { labels := labels
    dist := List.replicate n uni
    gamma_hat := 1
    gamma_star := f64MIN
    eta := eta
    half_tolerance := half_tolerance
    qp_model := none
    hypotheses := []
    weights := []
    n_sample := n
    nu := 1
    terminated := usizeMax
    max_iter := usizeMax }

/-- `ERLPBoost::regularization_param`:
`η = max(0.5, ln(n/ν) / half_tolerance)`. -/
def regularization_param (s : ERLPBoost) : ERLPBoost :=
  { s with eta := max 0.5 (Real.log ((s.n_sample : ℝ) / s.nu) / s.half_tolerance) }

/-- `ERLPBoost::nu(nu)`: the inline `assert!(1.0 <= nu && nu <= n)` is
modelled as `none` on failure; on success the setter also refreshes `η`. -/
def set_nu (s : ERLPBoost) (ν : ℝ) : Option ERLPBoost :=
  if 1 ≤ ν ∧ ν ≤ (s.n_sample : ℝ) then
    some (regularization_param { s with nu := ν })
  else none

/-- `ERLPBoost::tolerance(tolerance)`: stores `tolerance / 2`. -/
def set_tolerance (s : ERLPBoost) (tol : ℝ) : ERLPBoost :=
  { s with half_tolerance := tol / 2 }

/-- `ERLPBoost::init_solver`: passes `(η, 1/ν)` to `QPModel::init`.
(`checker::check_nu` always holds there for states whose `nu` went through
`set_nu` or kept the default `1`.) -/
def init_solver (s : ERLPBoost) : ERLPBoost :=
  { s with qp_model := some (s.eta, 1 / s.nu) }

/-- `ERLPBoost::max_loop`:
`ceil(max(4 / half_tolerance, 8·ln(n/ν) / half_tolerance²))`, cast to
`usize` (non-negative here, so the cast is `Nat.ceil`). -/
def max_loop (s : ERLPBoost) : ℕ :=
  ⌈max (4 / s.half_tolerance)
      (8 * Real.log ((s.n_sample : ℝ) / s.nu) / s.half_tolerance ^ 2)⌉₊

/-- `ERLPBoost::preprocess`.  Field updates in source order; `max_loop`,
`regularization_param` and `init_solver` read only fields that the earlier
assignments do not touch.  The in-code
`assert!((0.0..1.0).contains(&half_tolerance))` is a pure check. -/
def preprocess (s : ERLPBoost) : ERLPBoost :=
  let n := s.labels.length
  let uni : ℝ := 1 / (n : ℝ)
  let s1 := { s with
    dist := List.replicate n uni
    max_iter := s.max_loop
    terminated := s.max_loop
    hypotheses := []
    gamma_hat := 1
    gamma_star := -1 }
  s1.regularization_param.init_solver

/-- `ERLPBoost::update_gamma_hat_mut(h)`:
`γ̂ := min(γ̂, edge(h, dist) + entropy(dist)/η)`. -/
def update_gamma_hat (s : ERLPBoost) (h : Hyp) : ERLPBoost :=
  let edge := edge_of_hypothesis s.labels s.dist h
  let entropy := entropy_from_uni_distribution s.dist
  let obj_val := edge + entropy / s.eta
  { s with gamma_hat := min s.gamma_hat obj_val }

/-- `ERLPBoost::update_gamma_star_mut`:
`γ* := max_{h ∈ history} edge(h, dist) + entropy(dist)/η`.  The source's
`.reduce(f64::max).unwrap()` panics on an empty history; the only call site
pushes a hypothesis first, so the list is non-empty there (`0` is a junk
value for the impossible empty case). -/
def update_gamma_star (s : ERLPBoost) : ERLPBoost :=
  let max_edge :=
    match s.hypotheses.map (fun h => edge_of_hypothesis s.labels s.dist h) with
    | [] => 0
    | e :: es => es.foldl max e
  let entropy := entropy_from_uni_distribution s.dist
  { s with gamma_star := max_edge + entropy / s.eta }

/-- `ERLPBoost::boost`.  The weak learner's hypothesis `h` and the
distribution committed by `QPModel::update`/`distribution()` are the
collaborators' outputs, passed in. -/
def boost (s : ERLPBoost) (iteration : ℕ) (h : Hyp)
    (solver_dist : List ℝ) : ERLPBoost × State :=
  if s.max_iter < iteration then (s, State.Terminate)
  else
    let s1 := s.update_gamma_hat h
    if s1.gamma_hat - s1.gamma_star ≤ s1.half_tolerance then
      ({ s1 with terminated := iteration }, State.Terminate)
    else
      let s2 := { s1 with dist := solver_dist }
      let s3 := { s2 with hypotheses := s2.hypotheses ++ [h] }
      (s3.update_gamma_star, State.Continue)

/-- `ERLPBoost::postprocess`, with the solver's final weight vector
passed in. -/
def postprocess (s : ERLPBoost) (solver_weights : List ℝ) :
    ERLPBoost × List (ℝ × Hyp) :=
  ({ s with weights := solver_weights }, from_slices solver_weights s.hypotheses)

end ERLPBoost

/-! ## Claims -/

/-- C1: for the plain column-generation variant (`LPBoost::boost`, both the
current `lpboost_algorithm.rs` and the older `lpb.rs`), the boost step
terminates (Break/Terminate) at a round iff the dual bound returned by the
LP update satisfies `dual_bound ≥ primal_bound − tolerance` (with
`primal_bound` the freshly `min`-updated `gamma_hat`); it never terminates
earlier, and there is no intrinsic iteration cap: for every iteration
number, a gap larger than `tolerance` yields Continue. -/
theorem C1_plain_boost_breaks_iff_gap_closed
    (s : LPBoost) (t : LPB) (labels : List ℝ) (it : ℕ) (h : Hyp)
    (γs : ℝ) (d d' : List ℝ) :
    (((s.boost it h γs d).2 = CtrlFlow.Break it ↔
        min (edge_of_hypothesis s.labels s.dist h) s.gamma_hat - s.tolerance ≤ γs)
      ∧ (γs < min (edge_of_hypothesis s.labels s.dist h) s.gamma_hat - s.tolerance →
          (s.boost it h γs d).2 = CtrlFlow.Continue))
    ∧ (((t.boost labels h γs d').2 = State.Terminate ↔
        min (edge_of_hypothesis labels t.dist h) t.gamma_hat - t.tolerance ≤ γs)
      ∧ (γs < min (edge_of_hypothesis labels t.dist h) t.gamma_hat - t.tolerance →
          (t.boost labels h γs d').2 = State.Continue)) := by
  constructor
  · constructor
    · simp only [LPBoost.boost]
      split_ifs with hc
      · simpa using hc
      · simpa using hc
    · intro hlt
      simp only [LPBoost.boost]
      rw [if_neg (by linarith)]
  · constructor
    · simp only [LPB.boost]
      split_ifs with hc
      · simpa using hc
      · simpa using hc
    · intro hlt
      simp only [LPB.boost]
      rw [if_neg (by linarith)]

/-- C1 witness: at a concrete state, a dual bound far below the gap keeps
both plain variants in the Continue state. -/
theorem C1_plain_boost_breaks_iff_gap_closed_witness :
    (((LPBoost.init [1]).boost 1 [1] (-2) []).2 = CtrlFlow.Continue)
    ∧ (((LPB.init 1).boost [1] [1] (-2) []).2 = State.Continue) := by
  constructor
  · exact (C1_plain_boost_breaks_iff_gap_closed (LPBoost.init [1]) (LPB.init 1)
      [1] 1 [1] (-2) [] []).1.2
      (by norm_num [edge_of_hypothesis, LPBoost.init])
  · exact (C1_plain_boost_breaks_iff_gap_closed (LPBoost.init [1]) (LPB.init 1)
      [1] 1 [1] (-2) [] []).2.2
      (by norm_num [edge_of_hypothesis, LPB.init])

/-- C4: in both variants `gamma_hat` (the primal bound) is monotonically
non-increasing across rounds: after any boost call it is at most its
previous value. -/
theorem C4_gamma_hat_monotone
    (s : LPBoost) (t : ERLPBoost) (it it' : ℕ) (h h' : Hyp)
    (γs : ℝ) (d d' : List ℝ) :
    ((s.boost it h γs d).1.gamma_hat ≤ s.gamma_hat)
    ∧ ((t.boost it' h' d').1.gamma_hat ≤ t.gamma_hat) := by
  constructor
  · simp only [LPBoost.boost]
    split_ifs <;> simp [min_le_right]
  · simp only [ERLPBoost.boost]
    split_ifs <;>
      simp [ERLPBoost.update_gamma_hat, ERLPBoost.update_gamma_star, min_le_left]

/-- C10: on the round where the plain variant's boost terminates, the new
hypothesis is still appended to the history (so the recorded terminating
round equals the history length), but the engine's distribution is not
updated from the solver: it keeps its previous value. -/
theorem C10_plain_terminal_round_appends_but_keeps_dist
    (s : LPBoost) (t : LPB) (labels : List ℝ) (it : ℕ) (h : Hyp)
    (γs : ℝ) (d d' : List ℝ)
    (hterm : min (edge_of_hypothesis s.labels s.dist h) s.gamma_hat - s.tolerance ≤ γs)
    (hterm' : min (edge_of_hypothesis labels t.dist h) t.gamma_hat - t.tolerance ≤ γs) :
    ((s.boost it h γs d).1.hypotheses = s.hypotheses ++ [h]
      ∧ (s.boost it h γs d).1.terminated = (s.boost it h γs d).1.hypotheses.length
      ∧ (s.boost it h γs d).1.dist = s.dist
      ∧ (s.boost it h γs d).2 = CtrlFlow.Break it)
    ∧ ((t.boost labels h γs d').1.classifiers = t.classifiers ++ [h]
      ∧ (t.boost labels h γs d').1.terminated
          = (t.boost labels h γs d').1.classifiers.length
      ∧ (t.boost labels h γs d').1.dist = t.dist
      ∧ (t.boost labels h γs d').2 = State.Terminate) := by
  constructor
  · simp only [LPBoost.boost]
    rw [if_pos hterm]
    simp
  · simp only [LPB.boost]
    rw [if_pos hterm']
    simp

/-- C10 witness: a concrete terminating round for both plain variants. -/
theorem C10_plain_terminal_round_appends_but_keeps_dist_witness :
    (((LPBoost.init [1]).boost 1 [1] 0 []).1.dist = (LPBoost.init [1]).dist
      ∧ ((LPBoost.init [1]).boost 1 [1] 0 []).1.hypotheses = [[1]])
    ∧ (((LPB.init 1).boost [1] [1] 0 []).1.dist = (LPB.init 1).dist
      ∧ ((LPB.init 1).boost [1] [1] 0 []).1.classifiers = [[1]]) := by
  have happ := C10_plain_terminal_round_appends_but_keeps_dist
    (LPBoost.init [1]) (LPB.init 1) [1] 1 [1] 0 [] []
    (by norm_num [edge_of_hypothesis, LPBoost.init])
    (by norm_num [edge_of_hypothesis, LPB.init])
  refine ⟨⟨happ.1.2.2.1, ?_⟩, happ.2.2.2.1, ?_⟩
  · rw [happ.1.1]; simp [LPBoost.init]
  · rw [happ.2.1]; simp [LPB.init]

/-- C2: `ERLPBoost::preprocess` computes
`max_iter = ceil(max(4/half_tol, 8·ln(n/ν)/half_tol²))` with
`half_tol = tolerance/2`, and for every round number strictly greater than
`max_iter` the boost step immediately returns Terminate with the state
untouched, so the engine never runs beyond `max_iter` working rounds. -/
theorem C2_erlp_iteration_cap (s : ERLPBoost) (tol : ℝ) :
    ((s.set_tolerance tol).preprocess).max_iter
      = ⌈max (4 / (tol / 2))
          (8 * Real.log ((s.n_sample : ℝ) / s.nu) / (tol / 2) ^ 2)⌉₊
    ∧ ∀ (it : ℕ) (h : Hyp) (d : List ℝ),
        ((s.set_tolerance tol).preprocess).max_iter < it →
        ((s.set_tolerance tol).preprocess).boost it h d
          = ((s.set_tolerance tol).preprocess, State.Terminate) := by
  constructor
  · simp [ERLPBoost.set_tolerance, ERLPBoost.preprocess, ERLPBoost.max_loop,
      ERLPBoost.regularization_param, ERLPBoost.init_solver]
  · intro it h d hit
    simp only [ERLPBoost.boost]
    rw [if_pos hit]

/-- C2 witness: at `n = 1`, `ν = 1`, `tolerance = 1/2` the bound is
`⌈max(16, 0)⌉ = 16` and round `17` terminates immediately. -/
theorem C2_erlp_iteration_cap_witness :
    (((ERLPBoost.init [1]).set_tolerance (1/2)).preprocess).boost 17 [1] []
      = ((((ERLPBoost.init [1]).set_tolerance (1/2)).preprocess),
          State.Terminate) := by
  refine (C2_erlp_iteration_cap (ERLPBoost.init [1]) (1/2)).2 17 [1] [] ?_
  rw [(C2_erlp_iteration_cap (ERLPBoost.init [1]) (1/2)).1]
  norm_num [ERLPBoost.init]

/-- C3: in the entropy-regularized variant, whenever the convergence test
`primal_bound − dual_bound ≤ half_tolerance` holds at the start of a round
(after the `gamma_hat` update), boost records the terminating round and
returns Terminate without appending the round's hypothesis, without
updating the distribution, and without updating the dual bound. -/
theorem C3_erlp_converged_round_is_pure
    (s : ERLPBoost) (it : ℕ) (h : Hyp) (d : List ℝ)
    (hcap : it ≤ s.max_iter)
    (hconv : min s.gamma_hat
        (edge_of_hypothesis s.labels s.dist h
          + entropy_from_uni_distribution s.dist / s.eta)
        - s.gamma_star ≤ s.half_tolerance) :
    (s.boost it h d).2 = State.Terminate
    ∧ (s.boost it h d).1.terminated = it
    ∧ (s.boost it h d).1.hypotheses = s.hypotheses
    ∧ (s.boost it h d).1.dist = s.dist
    ∧ (s.boost it h d).1.gamma_star = s.gamma_star := by
  simp only [ERLPBoost.boost, ERLPBoost.update_gamma_hat]
  rw [if_neg (not_lt.mpr hcap), if_pos hconv]
  simp

/-- C3 witness: a concrete converged round (round 1 after preprocess with a
maximally wrong hypothesis) terminates and leaves history, distribution and
dual bound untouched. -/
theorem C3_erlp_converged_round_is_pure_witness :
    ((((ERLPBoost.init [1]).set_tolerance (1/2)).preprocess).boost 1 [-1] []).2
        = State.Terminate
    ∧ ((((ERLPBoost.init [1]).set_tolerance (1/2)).preprocess).boost 1 [-1] []).1.hypotheses
        = (((ERLPBoost.init [1]).set_tolerance (1/2)).preprocess).hypotheses := by
  have happ := C3_erlp_converged_round_is_pure
    (((ERLPBoost.init [1]).set_tolerance (1/2)).preprocess) 1 [-1] []
    (by
      norm_num [ERLPBoost.init, ERLPBoost.set_tolerance, ERLPBoost.preprocess,
        ERLPBoost.max_loop, ERLPBoost.regularization_param,
        ERLPBoost.init_solver])
    (by
      norm_num [ERLPBoost.init, ERLPBoost.set_tolerance, ERLPBoost.preprocess,
        ERLPBoost.max_loop, ERLPBoost.regularization_param, ERLPBoost.init_solver,
        edge_of_hypothesis, entropy_from_uni_distribution])
  exact ⟨happ.1, happ.2.2.1⟩

/-- C5 counterexample: after `ERLPBoost::preprocess` the dual bound is the
finite sentinel `−1`, not an effective `−∞`: with `n = 1`,
`tolerance = 1/2` and the round-1 hypothesis of edge `−1`, the convergence
test `primal_bound − dual_bound ≤ half_tolerance` IS satisfied at round 1
(`min(1, −1) − (−1) = 0 ≤ 1/4`), so the step terminates at round 1 by the
convergence test even though the hard cap (`max_iter = 16`) is far away. -/
theorem C5_counterexample_round1_convergence :
    ((((ERLPBoost.init [1]).set_tolerance (1/2)).preprocess).boost 1 [-1] []).2
        = State.Terminate
    ∧ ((((ERLPBoost.init [1]).set_tolerance (1/2)).preprocess).boost 1 [-1] []).1.terminated
        = 1
    ∧ 1 < (((ERLPBoost.init [1]).set_tolerance (1/2)).preprocess).max_iter := by
  refine ⟨?_, ?_, ?_⟩
  · norm_num [ERLPBoost.init, ERLPBoost.set_tolerance, ERLPBoost.preprocess,
      ERLPBoost.max_loop, ERLPBoost.regularization_param, ERLPBoost.init_solver,
      ERLPBoost.boost, ERLPBoost.update_gamma_hat, ERLPBoost.update_gamma_star,
      edge_of_hypothesis, entropy_from_uni_distribution]
  · norm_num [ERLPBoost.init, ERLPBoost.set_tolerance, ERLPBoost.preprocess,
      ERLPBoost.max_loop, ERLPBoost.regularization_param, ERLPBoost.init_solver,
      ERLPBoost.boost, ERLPBoost.update_gamma_hat, ERLPBoost.update_gamma_star,
      edge_of_hypothesis, entropy_from_uni_distribution]
  · norm_num [ERLPBoost.init, ERLPBoost.set_tolerance, ERLPBoost.preprocess,
      ERLPBoost.max_loop, ERLPBoost.regularization_param, ERLPBoost.init_solver]

/-- C5 (amended): after `ERLPBoost::preprocess`, `primal_bound = 1` and
`dual_bound = −1` (a finite sentinel standing for −∞).  At round 1 the
convergence test fails — boost continues — for every hypothesis whose
regularized objective `edge + entropy/η` on the uniform round-1 distribution
exceeds `half_tolerance − 1`; only a nearly maximally-wrong hypothesis
(objective ≤ `half_tolerance − 1`, e.g. edge `−1`) can terminate round 1 via
the convergence test rather than the hard cap. -/
theorem C5_amended_round1_continue
    (s : ERLPBoost) (h : Hyp) (d : List ℝ)
    (hhalf : s.half_tolerance < 2)
    (hcap : 1 ≤ s.preprocess.max_iter)
    (hobj : s.half_tolerance - 1 <
        edge_of_hypothesis s.labels s.preprocess.dist h
          + entropy_from_uni_distribution s.preprocess.dist / s.preprocess.eta) :
    s.preprocess.gamma_hat = 1
    ∧ s.preprocess.gamma_star = -1
    ∧ (s.preprocess.boost 1 h d).2 = State.Continue := by
  have hfields : s.preprocess.gamma_hat = 1 ∧ s.preprocess.gamma_star = -1 := by
    simp [ERLPBoost.preprocess, ERLPBoost.regularization_param,
      ERLPBoost.init_solver]
  refine ⟨hfields.1, hfields.2, ?_⟩
  have hlbl : s.preprocess.labels = s.labels := by
    simp [ERLPBoost.preprocess, ERLPBoost.regularization_param,
      ERLPBoost.init_solver]
  have hht : s.preprocess.half_tolerance = s.half_tolerance := by
    simp [ERLPBoost.preprocess, ERLPBoost.regularization_param,
      ERLPBoost.init_solver]
  simp only [ERLPBoost.boost, ERLPBoost.update_gamma_hat]
  rw [if_neg (by omega), if_neg]
  rw [hfields.1, hfields.2, hlbl, hht]
  push_neg
  have h1 : s.half_tolerance - 1 < (1 : ℝ) := by linarith
  have hmin : s.half_tolerance - 1
      < min 1 (edge_of_hypothesis s.labels s.preprocess.dist h
          + entropy_from_uni_distribution s.preprocess.dist / s.preprocess.eta) :=
    lt_min h1 hobj
  linarith [hmin]

/-- C5 (amended) witness: with `n = 1`, `tolerance = 1/2` and a round-1
hypothesis of edge `1`, round 1 continues. -/
theorem C5_amended_round1_continue_witness :
    ((((ERLPBoost.init [1]).set_tolerance (1/2)).preprocess).boost 1 [1] []).2
      = State.Continue :=
  (C5_amended_round1_continue ((ERLPBoost.init [1]).set_tolerance (1/2)) [1] []
    (by norm_num [ERLPBoost.init, ERLPBoost.set_tolerance])
    (by norm_num [ERLPBoost.init, ERLPBoost.set_tolerance, ERLPBoost.preprocess,
      ERLPBoost.max_loop, ERLPBoost.regularization_param, ERLPBoost.init_solver])
    (by norm_num [ERLPBoost.init, ERLPBoost.set_tolerance, ERLPBoost.preprocess,
      ERLPBoost.max_loop, ERLPBoost.regularization_param, ERLPBoost.init_solver,
      edge_of_hypothesis, entropy_from_uni_distribution])).2.2

/-- C6: for the entropy-regularized variant, after `preprocess` (and after
any `nu` call) the regularization parameter satisfies
`η = max(0.5, ln(n/ν) / (tolerance/2))`, and no boost round modifies `η`:
it is fixed for the whole run. -/
theorem C6_eta_formula_and_fixed
    (s u t : ERLPBoost) (tol ν : ℝ) (it : ℕ) (h : Hyp) (d : List ℝ) :
    ((s.set_tolerance tol).preprocess).eta
        = max 0.5 (Real.log ((s.n_sample : ℝ) / s.nu) / (tol / 2))
    ∧ (∀ u', u.set_nu ν = some u' →
        u'.eta = max 0.5 (Real.log ((u.n_sample : ℝ) / ν) / u.half_tolerance))
    ∧ ((t.boost it h d).1.eta = t.eta) := by
  refine ⟨?_, ?_, ?_⟩
  · simp [ERLPBoost.set_tolerance, ERLPBoost.preprocess, ERLPBoost.max_loop,
      ERLPBoost.regularization_param, ERLPBoost.init_solver]
  · intro u' hu
    unfold ERLPBoost.set_nu at hu
    split_ifs at hu with hc
    · cases hu
      simp [ERLPBoost.regularization_param]
  · simp only [ERLPBoost.boost]
    split_ifs <;>
      simp [ERLPBoost.update_gamma_hat, ERLPBoost.update_gamma_star]

/-- C6 witness: a concrete successful `nu` call yields the `η` formula. -/
theorem C6_eta_formula_and_fixed_witness :
    (ERLPBoost.regularization_param { ERLPBoost.init [1] with nu := 1 }).eta
      = max 0.5 (Real.log (((ERLPBoost.init [1]).n_sample : ℝ) / 1)
          / (ERLPBoost.init [1]).half_tolerance) := by
  refine (C6_eta_formula_and_fixed (ERLPBoost.init [1]) (ERLPBoost.init [1])
    (ERLPBoost.init [1]) 1 1 1 [1] []).2.1 _ ?_
  rw [ERLPBoost.set_nu, if_pos (by norm_num [ERLPBoost.init] :
    (1:ℝ) ≤ 1 ∧ (1:ℝ) ≤ (((ERLPBoost.init [1]).n_sample : ℕ) : ℝ))]

/-- Dropping the zero-weight pairs of a weighted list does not change the
total weight. -/
theorem sum_fst_filter_ne_zero (l : List (ℝ × Hyp)) :
    ((l.filter (fun p => p.1 ≠ 0)).map Prod.fst).sum
      = (l.map Prod.fst).sum := by
  induction l with
  | nil => simp
  | cons a l ih =>
    by_cases ha : a.1 = 0 <;> simp_all [List.filter_cons]

/-- C7: postprocess builds the combined hypothesis by pairing the
optimizer's final weights with the hypothesis history in position order,
dropping exactly the zero-weight pairs, with no re-normalization of the
retained weights: every retained pair is a nonzero-weight pair of the
positional zip, and the retained weights sum to the full weight vector's
sum (hence to 1 whenever the optimizer's weights sum to 1). -/
theorem C7_postprocess_filters_zero_weights
    (t : ERLPBoost) (u : LPB) (w : List ℝ) :
    ((t.postprocess w).2 = (w.zip t.hypotheses).filter (fun p => p.1 ≠ 0)
      ∧ (∀ p ∈ (t.postprocess w).2, p.1 ≠ 0 ∧ p ∈ w.zip t.hypotheses)
      ∧ (w.length = t.hypotheses.length →
          (((t.postprocess w).2).map Prod.fst).sum = w.sum))
    ∧ (u.postprocess w = (w.zip u.classifiers).filter (fun p => p.1 ≠ 0)
      ∧ (∀ p ∈ u.postprocess w, p.1 ≠ 0 ∧ p ∈ w.zip u.classifiers)
      ∧ (w.length = u.classifiers.length →
          ((u.postprocess w).map Prod.fst).sum = w.sum)) := by
  refine ⟨⟨rfl, ?_, ?_⟩, ⟨rfl, ?_, ?_⟩⟩
  · intro p hp
    simp only [ERLPBoost.postprocess, from_slices, List.mem_filter,
      decide_eq_true_eq] at hp
    exact ⟨hp.2, hp.1⟩
  · intro hlen
    have := sum_fst_filter_ne_zero (w.zip t.hypotheses)
    simp only [ERLPBoost.postprocess, from_slices]
    rw [this, List.map_fst_zip _ _ (le_of_eq hlen)]
  · intro p hp
    simp only [LPB.postprocess, List.mem_filter, decide_eq_true_eq] at hp
    exact ⟨hp.2, hp.1⟩
  · intro hlen
    have := sum_fst_filter_ne_zero (w.zip u.classifiers)
    simp only [LPB.postprocess]
    rw [this, List.map_fst_zip _ _ (le_of_eq hlen)]

/-- C7 witness: a concrete weight vector with a zero entry: the zero pair
is dropped and the retained weight mass is unchanged. -/
theorem C7_postprocess_filters_zero_weights_witness :
    ((({ ERLPBoost.init [1] with hypotheses := [[1], [-1]] }).postprocess [0, 1]).2.map
        Prod.fst).sum = ([(0:ℝ), 1]).sum := by
  refine (C7_postprocess_filters_zero_weights
    { ERLPBoost.init [1] with hypotheses := [[1], [-1]] }
    (LPB.init 1) [0, 1]).1.2.2 ?_
  simp

/-- C8: setting the capping parameter succeeds exactly when `1 ≤ ν ≤ n`
(number of training examples); outside that interval the setter panics
(modelled as `none`) before any boosting round, and for ν inside the
interval the solver initialized by preprocess receives the per-example
weight upper bound `1/ν` — for both variants. -/
theorem C8_nu_validation
    (s : LPBoost) (t : ERLPBoost) (ν μ : ℝ) :
    ((¬ (1 ≤ ν ∧ ν ≤ (s.n_sample : ℝ))) → s.set_nu ν = none)
    ∧ ((1 ≤ ν ∧ ν ≤ (s.n_sample : ℝ)) →
        s.set_nu ν = some { s with nu := ν }
        ∧ ({ s with nu := ν } : LPBoost).preprocess.lp_model = some (1 / ν))
    ∧ ((¬ (1 ≤ μ ∧ μ ≤ (t.n_sample : ℝ))) → t.set_nu μ = none)
    ∧ ((1 ≤ μ ∧ μ ≤ (t.n_sample : ℝ)) →
        ∃ t', t.set_nu μ = some t' ∧ t'.nu = μ
          ∧ t'.preprocess.qp_model = some (t'.preprocess.eta, 1 / μ)) := by
  refine ⟨?_, ?_, ?_, ?_⟩
  · intro hbad
    simp only [LPBoost.set_nu]
    exact if_neg hbad
  · intro hok
    refine ⟨by simp only [LPBoost.set_nu]; exact if_pos hok, ?_⟩
    simp [LPBoost.preprocess, LPBoost.init_solver]
  · intro hbad
    rw [ERLPBoost.set_nu, if_neg hbad]
  · intro hok
    refine ⟨ERLPBoost.regularization_param { t with nu := μ },
      by rw [ERLPBoost.set_nu, if_pos hok], ?_, ?_⟩
    · simp [ERLPBoost.regularization_param]
    · simp [ERLPBoost.preprocess, ERLPBoost.regularization_param,
        ERLPBoost.init_solver]

/-- C8 witness: with one training example, `ν = 2` is rejected and `ν = 1`
is accepted with solver upper bound `1`. -/
theorem C8_nu_validation_witness :
    ((LPBoost.init [1]).set_nu 2 = none)
    ∧ ((LPBoost.init [1]).set_nu 1
        = some { LPBoost.init [1] with nu := 1 }) := by
  have happ := C8_nu_validation (LPBoost.init [1]) (ERLPBoost.init [1]) 2 1
  have happ' := C8_nu_validation (LPBoost.init [1]) (ERLPBoost.init [1]) 1 1
  refine ⟨happ.1 ?_, (happ'.2.1 ?_).1⟩
  · norm_num [LPBoost.init]
  · norm_num [LPBoost.init]

/-- C9: preprocess is idempotent: from any prior engine state (any run
state), preprocess resets the distribution to uniform `1/n`, clears the
hypothesis history, resets the bounds to their initial values, and applying
preprocess twice gives exactly the state of a single application — for both
variants.  (For the plain variant the field `n_sample` always equals the
borrowed sample's size in any reachable state, taken as hypothesis.) -/
theorem C9_preprocess_idempotent
    (s : LPBoost) (t : ERLPBoost) (hs : s.n_sample = s.labels.length) :
    s.preprocess.preprocess = s.preprocess
    ∧ s.preprocess.dist
        = List.replicate s.labels.length (1 / (s.labels.length : ℝ))
    ∧ s.preprocess.hypotheses = [] ∧ s.preprocess.gamma_hat = 1
    ∧ s.preprocess.terminated = usizeMax
    ∧ t.preprocess.preprocess = t.preprocess
    ∧ t.preprocess.dist
        = List.replicate t.labels.length (1 / (t.labels.length : ℝ))
    ∧ t.preprocess.hypotheses = [] ∧ t.preprocess.gamma_hat = 1
    ∧ t.preprocess.gamma_star = -1 := by
  refine ⟨?_, ?_, ?_, ?_, ?_, ?_, ?_, ?_, ?_, ?_⟩
  · apply LPBoost.ext <;>
      simp [LPBoost.preprocess, LPBoost.init_solver, hs]
  · simp [LPBoost.preprocess, LPBoost.init_solver, hs]
  · simp [LPBoost.preprocess, LPBoost.init_solver]
  · simp [LPBoost.preprocess, LPBoost.init_solver]
  · simp [LPBoost.preprocess, LPBoost.init_solver]
  · apply ERLPBoost.ext <;>
      simp [ERLPBoost.preprocess, ERLPBoost.max_loop,
        ERLPBoost.regularization_param, ERLPBoost.init_solver]
  · simp [ERLPBoost.preprocess, ERLPBoost.regularization_param,
      ERLPBoost.init_solver]
  · simp [ERLPBoost.preprocess, ERLPBoost.regularization_param,
      ERLPBoost.init_solver]
  · simp [ERLPBoost.preprocess, ERLPBoost.regularization_param,
      ERLPBoost.init_solver]
  · simp [ERLPBoost.preprocess, ERLPBoost.regularization_param,
      ERLPBoost.init_solver]

/-- C9 witness: a concrete two-example engine state. -/
theorem C9_preprocess_idempotent_witness :
    (LPBoost.init [1, -1]).preprocess.preprocess
      = (LPBoost.init [1, -1]).preprocess :=
  (C9_preprocess_idempotent (LPBoost.init [1, -1]) (ERLPBoost.init [1, -1])
    (by simp [LPBoost.init])).1
